import Mathlib

/-!
Verification development for the FINCLUSION personal-finance web application.

The TypeScript sources are shallowly embedded: browser localStorage becomes an
association list from key to raw string value, JavaScript objects used by the
mock auth store become association lists of JSON-like values, asynchronous
backend calls become explicit outcome parameters (an oracle describing what the
remote service returned or threw), and thrown exceptions become Except values.
Clock reads (Date.now and toISOString) are passed in explicitly.
-/

namespace FinTrack

/-- JSON-like primitive value stored in a JavaScript object field. -/
inductive JVal where
  | s (v : String)
  | b (v : Bool)
deriving DecidableEq

/-- JavaScript object modelled as an association list preserving insertion order. -/
abbrev JObj := List (String × JVal)

/-- Field read on a JavaScript object: value of the first binding of the key. -/
def JObj.get (o : JObj) (k : String) : Option JVal :=
  (o.find? (fun kv => kv.1 == k)).map (fun kv => kv.2)

/-- Keys present in a JavaScript object. -/
def JObj.keys (o : JObj) : List String := o.map (fun kv => kv.1)

/-- String coercion used when a field value is spliced into a template literal. -/
def JVal.toStr : JVal → String
  | .s v => v
  | .b true => "true"
  | .b false => "false"

/-- Field read coerced to a string, with the JavaScript rendering of undefined. -/
def JObj.getStr (o : JObj) (k : String) : String :=
  match o.get k with
  | some v => v.toStr
  | none => "undefined"

/-- Field read as an optional string, mirroring direct property access. -/
def JObj.getOptStr (o : JObj) (k : String) : Option String :=
  (o.get k).map JVal.toStr

/-- Browser localStorage or sessionStorage: association list from key to raw value. -/
abbrev Store := List (String × String)

/-- localStorage.getItem: first binding of the key, if any. -/
def Store.getItem (s : Store) (k : String) : Option String :=
  (s.find? (fun kv => kv.1 == k)).map (fun kv => kv.2)

/-- localStorage.setItem: overwrite the existing binding or append a new one. -/
def Store.setItem (s : Store) (k v : String) : Store :=
  if s.any (fun kv => kv.1 == k) then
    s.map (fun kv => if kv.1 == k then (k, v) else kv)
  else
    s ++ [(k, v)]

/-- localStorage.removeItem: drop every binding of the key. -/
def Store.removeItem (s : Store) (k : String) : Store :=
  s.filter (fun kv => kv.1 != k)

/-- Clock snapshot: Date.now in milliseconds and the ISO rendering of new Date. -/
structure Clock where
  nowMs : Nat
  isoNow : String
deriving DecidableEq

/-- JavaScript substring containment, as used by String.prototype.includes. -/
def jsIncludes (s sub : String) : Bool :=
  decide (List.IsInfix sub.data s.data)

/-- JavaScript truthiness-based disjunction on optional strings: the left operand
wins unless it is undefined or the empty string. -/
def jsOr (a b : Option String) : Option String :=
  match a with
  | some v => if v = "" then b else some v
  | none => b

/-- JavaScript toLowerCase restricted to the ASCII range used by category names. -/
def jsToLower (s : String) : String := String.mk (s.data.map Char.toLower)

namespace MockAuth

/-- Demo user seeded into the mock store (src/services/mockAuth.ts, DEMO_USER). -/
def DEMO_USER : JObj :=
  [("email", .s "demo@budgettracker.com"),
   ("password", .s "demo1234"),
   ("name", .s ""),
   ("id", .s "demo-user-id"),
   ("profileCompleted", .b false),
   ("panId", .s "DEMO1234Z"),
   ("dateOfBirth", .s "1990-01-01")]

/-- In-memory user map of MockUserStorage, keyed by email. -/
abbrev Users := List (String × JObj)

/-- Lookup in the in-memory user map. -/
def Users.get (u : Users) (email : String) : Option JObj :=
  (u.find? (fun kv => kv.1 == email)).map (fun kv => kv.2)

/-- Initial user map: only the demo user. -/
def initialUsers : Users := [("demo@budgettracker.com", DEMO_USER)]

/-- MockUserStorage.generateToken: template literal combining user id and Date.now. -/
def generateToken (userId : String) (c : Clock) : String :=
  "mock-token-" ++ userId ++ "-" ++ toString c.nowMs

/-- Shape of a successful mock auth response. -/
structure MockResult where
  success : Bool
  token : String
  user : JObj
deriving DecidableEq

/-- MockUserStorage.register, with thrown errors as Except values. The returned
user object is built by rest-destructuring away the password key. -/
def register (users : Users) (name email password : String) (c : Clock) :
    Except String (MockResult × Users) :=
  if name = "" ∨ email = "" ∨ password = "" then
    .error "All fields are required"
  else if password.length < 8 then
    .error "Password must be at least 8 characters"
  else if (Users.get users email).isSome then
    .error "User already exists with this email"
  else
    let uid := "user-" ++ toString c.nowMs
    let newUser : JObj :=
      [("id", .s uid),
       ("name", .s name),
       ("email", .s email),
       ("password", .s password),
       ("profileCompleted", .b false),
       ("createdAt", .s c.isoNow)]
    let userData := newUser.filter (fun kv => kv.1 != "password")
    .ok ({ success := true, token := generateToken uid c, user := userData },
         users ++ [(email, newUser)])

/-- MockUserStorage.login, with thrown errors as Except values. -/
def login (users : Users) (email password : String) (c : Clock) :
    Except String MockResult :=
  if email = "" ∨ password = "" then
    .error "Email and password are required"
  else
    match Users.get users email with
    | none => .error "Invalid credentials"
    | some user =>
      if user.get "password" ≠ some (.s password) then
        .error "Invalid credentials"
      else
        .ok { success := true,
              token := generateToken (user.getStr "id") c,
              user := user.filter (fun kv => kv.1 != "password") }

end MockAuth

/-- JavaScript error object: message plus the optional code field used by the
database client. -/
structure JSError where
  message : String
  code : Option String := none
deriving DecidableEq

/-- AuthUser shape returned by the auth/session manager. -/
structure AuthUser where
  id : String
  email : String
  name : Option String := none
  full_name : Option String := none
deriving DecidableEq

/-- AuthResponse shape of the auth/session manager: success flag plus optional
user, token, error message, and the email-confirmation flag. -/
structure AuthResponse where
  success : Bool
  user : Option AuthUser := none
  token : Option String := none
  error : Option String := none
  needsEmailConfirmation : Bool := false
deriving DecidableEq

/-- Stand-in for the JSON text written by JSON.stringify on a user object.
No theorem in this development depends on the encoded text, only on which
localStorage keys are written. -/
def encodeAuthUser (u : AuthUser) : String :=
  String.intercalate "|" [u.id, u.email, u.name.getD "", u.full_name.getD ""]

/-- Stand-in for the JSON text of the userProfile object written on login. -/
def encodeUserProfile (u : AuthUser) : String :=
  String.intercalate "|" [(jsOr u.name u.full_name).getD "", u.email]

namespace AuthService

/-- AuthService.saveUserCredentials: the three localStorage writes. -/
def saveUserCredentials (u : AuthUser) (token : String) (st : Store) : Store :=
  ((st.setItem "token" token).setItem "userData" (encodeAuthUser u)).setItem
    "userProfile" (encodeUserProfile u)

/-- Row of the user_profiles table as read during login. -/
structure ProfileRow where
  full_name : Option String := none
  name : Option String := none
deriving DecidableEq

/-- Data returned by a successful signInWithPassword call. -/
structure SbLoginOk where
  userId : String
  userEmail : String
  accessToken : String
  userMetaName : Option String := none
  userMetaFullName : Option String := none
deriving DecidableEq

/-- Outcome of the remote sign-in interaction: the awaited call rejects, the
call resolves with a non-null error field, the call resolves without a user
and session pair, or it succeeds and the follow-up profile fetch either
rejects or yields an optional profile row. -/
inductive SbLogin where
  | rejects (e : JSError)
  | errorField (e : JSError)
  | noSession
  | ok (d : SbLoginOk) (profileFetch : Except JSError (Option ProfileRow))

/-- Result of a login run: response, updated localStorage, and which of the two
backends were invoked during the call. -/
structure LoginOut where
  resp : AuthResponse
  store : Store
  mockInvoked : Bool
  supabaseInvoked : Bool
deriving DecidableEq

/-- Remote branch of AuthService.login: signInWithPassword, profile fetch,
credential caching, with every thrown error converted by the catch clause. -/
def loginSupabase (sb : SbLogin) (st : Store) (mockInvoked : Bool) : LoginOut :=
  match sb with
  | .rejects e =>
    ⟨{ success := false,
       error := some (if e.message = "" then "Login failed" else e.message) },
     st, mockInvoked, true⟩
  | .errorField e =>
    ⟨{ success := false,
       error := some (if e.message = "" then "Login failed" else e.message) },
     st, mockInvoked, true⟩
  | .noSession =>
    ⟨{ success := false, error := some "No user data received" },
     st, mockInvoked, true⟩
  | .ok d profileFetch =>
    match profileFetch with
    | .error e =>
      ⟨{ success := false,
         error := some (if e.message = "" then "Login failed" else e.message) },
       st, mockInvoked, true⟩
    | .ok profile =>
      let user : AuthUser :=
        { id := d.userId,
          email := d.userEmail,
          name := jsOr (jsOr (profile.bind ProfileRow.full_name)
                             (profile.bind ProfileRow.name)) d.userMetaName,
          full_name := jsOr (jsOr (profile.bind ProfileRow.full_name)
                                  (profile.bind ProfileRow.name)) d.userMetaFullName }
      ⟨{ success := true, user := some user, token := some d.accessToken },
       saveUserCredentials user d.accessToken st, mockInvoked, true⟩

/-- AuthService.login: the hard-coded demo credential pair is routed to the
mock store, everything else to the remote backend. -/
def login (email password : String) (users : MockAuth.Users) (c : Clock)
    (sb : SbLogin) (st : Store) : LoginOut :=
  if email = "demo@budgettracker.com" ∧ password = "demo1234" then
    match MockAuth.login users email password c with
    | .error e => ⟨{ success := false, error := some e }, st, true, false⟩
    | .ok r =>
      if r.success then
        let user : AuthUser :=
          { id := r.user.getStr "id",
            email := r.user.getStr "email",
            name := r.user.getOptStr "name",
            full_name := r.user.getOptStr "name" }
        let st1 := saveUserCredentials user r.token st
        let st2 := ((((st1.setItem "userToken" r.token).setItem
            "isAuthenticated" "true").setItem "userId" user.id).setItem
            "userEmail" user.email)
        ⟨{ success := true, user := some user, token := some r.token },
         st2, true, false⟩
      else
        loginSupabase sb st true
  else
    loginSupabase sb st false

/-- Exact list of localStorage keys removed by clearLocalStorageOnly. -/
def keysToRemove : List String :=
  ["token", "userData", "currentUser", "userProfile", "transactions",
   "customCategories", "reminders", "monthlyBudget", "cartItems",
   "paidRemindersHistory", "profileData", "sb-hyakzfaxrfsistgwlzln-auth-token"]

/-- AuthService.clearLocalStorageOnly: remove the cached keys and clear the
whole sessionStorage. -/
def clearLocalStorageOnly (st sess : Store) : Store × Store :=
  (keysToRemove.foldl (fun s k => s.removeItem k) st, ([] : Store))

/-- Outcome of the remote signOut call: the await rejects, it resolves with a
non-null error field (only logged), or it resolves cleanly. -/
inductive SignOutOutcome where
  | rejects (e : JSError)
  | errorField (e : JSError)
  | ok
deriving DecidableEq

/-- Result of a logout run. -/
structure LogoutOut where
  success : Bool
  error : Option String := none
  store : Store
  session : Store
deriving DecidableEq

/-- AuthService.logout: sign out remotely, clear local caches regardless of the
outcome, and always report success. -/
def logout (so : SignOutOutcome) (st sess : Store) : LogoutOut :=
  match so with
  | .rejects e =>
    let p := clearLocalStorageOnly st sess
    { success := true, error := some e.message, store := p.1, session := p.2 }
  | .errorField _ =>
    let p := clearLocalStorageOnly st sess
    { success := true, store := p.1, session := p.2 }
  | .ok =>
    let p := clearLocalStorageOnly st sess
    { success := true, store := p.1, session := p.2 }

/-- Auth-service user row returned by signUp. -/
structure SbUser where
  id : String
  email : String
deriving DecidableEq

/-- Session object returned by signUp when email confirmation is disabled. -/
structure SbSession where
  access_token : String
deriving DecidableEq

/-- Data object of a resolved signUp call. -/
structure SignUpData where
  user : Option SbUser := none
  session : Option SbSession := none
deriving DecidableEq

/-- Oracle describing the remote interactions of one register run: the
existing-profile lookup (rejection propagates to the outer catch) and, per
attempt index, the signUp outcome (a rejection, or an error field plus data).
The cleanup RPC and the post-signUp profile-verification polls are wrapped in
their own try/catch blocks in the source and only log, so they cannot affect
the returned value or the stores and are not modelled. -/
structure RegOracle where
  existingProfile : Except JSError (Option String)
  signUp : Nat → Except JSError (Option JSError × SignUpData)

/-- Error messages that stop the signUp retry loop without retrying. -/
def nonRetryableMsg (e : JSError) : Bool :=
  jsIncludes e.message "User already registered" ||
  jsIncludes e.message "already exists" ||
  jsIncludes e.message "email rate limit exceeded"

/-- Error messages treated as constraint violations worth retrying. -/
def constraintMsg (e : JSError) : Bool :=
  jsIncludes e.message "constraint" || jsIncludes e.message "foreign key"

/-- The bounded signUp retry loop of AuthService.register, carrying the last
observed registrationData and registrationError across iterations. -/
def regLoop (oracle : RegOracle) (retryCount : Nat)
    (prevData : Option SignUpData) (prevErr : Option JSError) :
    Option SignUpData × Option JSError :=
  if retryCount > 3 then (prevData, prevErr)
  else
    match oracle.signUp retryCount with
    | .error err =>
      if retryCount + 1 > 3 then (prevData, some err)
      else regLoop oracle (retryCount + 1) prevData (some err)
    | .ok (errField, data) =>
      if errField = none ∧ data.user.isSome then (some data, errField)
      else if (match errField with
               | some e => nonRetryableMsg e
               | none => false) then (some data, errField)
      else if (match errField with
               | some e => constraintMsg e
               | none => false) || retryCount < 3 then
        regLoop oracle (retryCount + 1) (some data) errField
      else (some data, errField)
termination_by 4 - retryCount

/-- User-facing message for duplicate accounts. -/
def alreadyExistsMsg : String :=
  "An account with this email already exists. Please try logging in instead."

/-- Outer catch clause of AuthService.register. -/
def registerCatch (e : JSError) : AuthResponse :=
  if jsIncludes e.message "duplicate key value" ||
     jsIncludes e.message "profiles_email_key" || e.code = some "23505" then
    { success := false, error := some alreadyExistsMsg }
  else
    { success := false,
      error := some (if e.message = "" then "Registration failed" else e.message) }

/-- Result of a register run: response plus localStorage and sessionStorage. -/
structure RegisterOut where
  resp : AuthResponse
  store : Store
  session : Store
deriving DecidableEq

/-- AuthService.register: existing-profile check, bounded signUp retry loop,
error-message dispatch, and the two success shapes (email confirmation pending
or immediate session). Store mutations happen only on success paths, so on a
propagated exception the stores are returned unchanged. -/
def register (name email password : String) (oracle : RegOracle)
    (st sess : Store) : RegisterOut :=
  match oracle.existingProfile with
  | .error e => ⟨registerCatch e, st, sess⟩
  | .ok (some _) =>
    ⟨{ success := false, error := some alreadyExistsMsg }, st, sess⟩
  | .ok none =>
    let p := regLoop oracle 0 none none
    match p.2 with
    | some e =>
      if jsIncludes e.message "User already registered" ||
         jsIncludes e.message "already exists" then
        ⟨{ success := false, error := some alreadyExistsMsg }, st, sess⟩
      else if jsIncludes e.message "email rate limit" then
        ⟨{ success := false,
           error := some "Too many registration attempts. Please wait a few minutes and try again." },
         st, sess⟩
      else ⟨registerCatch e, st, sess⟩
    | none =>
      match p.1 with
      | some data =>
        match data.user with
        | some u =>
          match data.session with
          | none =>
            let sess2 := (sess.setItem "pendingUserRegistration" "true").setItem
              "pendingUserName" name
            ⟨{ success := true, needsEmailConfirmation := true,
               error := some "Please check your email and click the confirmation link. You will be redirected to your dashboard automatically." },
             st, sess2⟩
          | some session =>
            let user : AuthUser :=
              { id := u.id, email := u.email, name := some name, full_name := some name }
            ⟨{ success := true, user := some user,
               token := some session.access_token },
             saveUserCredentials user session.access_token st, sess⟩
        | none =>
          ⟨{ success := false,
             error := some "Registration failed - no user data received" }, st, sess⟩
      | none =>
        ⟨{ success := false,
           error := some "Registration failed - no user data received" }, st, sess⟩

end AuthService

/-- Form state of the Signup page. -/
structure SignupForm where
  name : String
  email : String
  password : String
  confirmPassword : String
deriving DecidableEq

/-- Outcome of the synchronous validation prefix of Signup.handleSubmit: either
an inline validation error shown before any backend request, or the call to
the auth manager with the validated fields. -/
inductive SubmitOutcome where
  | validationError (msg : String)
  | callBackend (name email password : String)
deriving DecidableEq

/-- Validation prefix of Signup.handleSubmit, in source order: required fields,
password confirmation, then minimum length; only then is the backend called. -/
def handleSubmitValidation (fd : SignupForm) : SubmitOutcome :=
  if fd.name = "" ∨ fd.email = "" ∨ fd.password = "" ∨ fd.confirmPassword = "" then
    .validationError "Please fill all fields"
  else if fd.password ≠ fd.confirmPassword then
    .validationError "Passwords do not match"
  else if fd.password.length < 8 then
    .validationError "Password must be at least 8 characters"
  else
    .callBackend fd.name fd.email fd.password

/-- Calendar date as produced by the JavaScript Date values the mock API
compares; time of day and timezone are outside the model. -/
structure JDate where
  year : Int
  month : Nat
  day : Nat
deriving DecidableEq

/-- Date comparison used by the filters: calendar (lexicographic) order. -/
def JDate.leb (a b : JDate) : Bool :=
  if a.year < b.year then true
  else if a.year = b.year then
    if a.month < b.month then true
    else if a.month = b.month then decide (a.day ≤ b.day)
    else false
  else false

/-- Leap-year rule of the Gregorian calendar, as implemented by Date. -/
def isLeapYear (y : Int) : Bool :=
  (y % 4 = 0 ∧ y % 100 ≠ 0) ∨ y % 400 = 0

/-- Day count of a month; new Date of day zero of the next month yields this
day of the given month. -/
def daysInMonth (y : Int) (m : Nat) : Nat :=
  if m = 1 ∨ m = 3 ∨ m = 5 ∨ m = 7 ∨ m = 8 ∨ m = 10 ∨ m = 12 then 31
  else if m = 4 ∨ m = 6 ∨ m = 9 ∨ m = 11 then 30
  else if isLeapYear y then 29 else 28

/-- Transaction record stored in the transactions cache. Amounts are modelled
as exact integers; the claims under study concern the aggregation structure,
not floating-point rounding. -/
structure MockTransaction where
  _id : String
  type : String
  amount : Int
  category : String
  description : String
  date : JDate
deriving DecidableEq

/-- Category record stored in the categories cache. -/
structure MockCategory where
  _id : String
  name : String
  type : String
  color : Option String := none
  icon : Option String := none
  budget : Option Int := none
  createdAt : Option String := none
deriving DecidableEq

/-- Input of createCategory: a category without its identifier. -/
structure CategoryInput where
  name : String
  type : String
  color : Option String := none
  icon : Option String := none
  budget : Option Int := none
deriving DecidableEq

/-- Result shape of the mock API calls. -/
inductive ApiResult (α : Type) where
  | ok (data : α)
  | fail (error : String)
deriving DecidableEq

/-- State of the mock data layer: the parsed contents of the categories and
transactions localStorage entries, absent when the key was never written. -/
structure CatState where
  categories : Option (List MockCategory) := none
  transactions : Option (List MockTransaction) := none
deriving DecidableEq

namespace CategoryAPI

/-- categoryAPI.createCategory, mock branch: reject when a category with the
same case-insensitive name and the same type exists, else append. -/
def createCategory (category : CategoryInput) (st : CatState) (c : Clock) :
    ApiResult MockCategory × CatState :=
  let categories := st.categories.getD []
  match categories.find? (fun cc =>
      jsToLower cc.name == jsToLower category.name && cc.type == category.type) with
  | some _ => (.fail "Category already exists", st)
  | none =>
    let newCategory : MockCategory :=
      { _id := "cat-" ++ toString c.nowMs, name := category.name,
        type := category.type, color := category.color, icon := category.icon,
        budget := category.budget, createdAt := some c.isoNow }
    (.ok newCategory, { st with categories := some (categories ++ [newCategory]) })

/-- categoryAPI.deleteCategory, mock branch (the branch that runs, since
USE_MOCK_AUTH is hard-coded to true): remove the category, then filter the
transaction list, keeping only transactions whose category name differs from
the deleted category's name. -/
def deleteCategory (id : String) (st : CatState) : ApiResult Unit × CatState :=
  match st.categories with
  | none => (.fail "No categories found", st)
  | some categories =>
    match categories.find? (fun cc => cc._id == id) with
    | none => (.fail "Category not found", st)
    | some categoryToDelete =>
      let filteredCategories := categories.filter (fun cc => cc._id != id)
      let st1 := { st with categories := some filteredCategories }
      match st1.transactions with
      | none => (.ok (), st1)
      | some transactions =>
        let updatedTransactions :=
          transactions.filter (fun t => t.category != categoryToDelete.name)
        (.ok (), { st1 with transactions := some updatedTransactions })

/-- Transaction row of the remote transactions table. -/
structure DbTransaction where
  id : String
  user_id : String
  category_id : Option String := none
  amount : Int
  date : JDate
deriving DecidableEq

/-- Remote branch of categoryAPI.deleteCategory, transactions step: update
category_id to null on every row of the user referencing the deleted
category. This is the branch the mock branch was meant to mirror. -/
def deleteCategorySupabaseDetach (id uid : String) (txs : List DbTransaction) :
    List DbTransaction :=
  txs.map (fun t =>
    if t.category_id == some id && t.user_id == uid then
      { t with category_id := none }
    else t)

end CategoryAPI

/-- Monthly summary computed by getMonthlyTransactions. -/
structure Summary where
  income : Int
  expense : Int
  balance : Int
deriving DecidableEq

/-- Payload of a getMonthlyTransactions response. -/
structure MonthlyData where
  transactions : List MockTransaction
  summary : Summary
deriving DecidableEq

namespace TransactionAPI

/-- transactionAPI.getMonthlyTransactions, mock branch: filter the cached
transactions to the closed date range from the first to the last day of the
month, then fold the filtered list into income and expense totals and set
balance to their difference. -/
def getMonthlyTransactions (year : Int) (month : Nat)
    (stored : Option (List MockTransaction)) : ApiResult MonthlyData :=
  match stored with
  | none => .ok ⟨[], ⟨0, 0, 0⟩⟩
  | some transactions =>
    let startDate : JDate := ⟨year, month, 1⟩
    let endDate : JDate := ⟨year, month, daysInMonth year month⟩
    let filtered := transactions.filter
      (fun t => JDate.leb startDate t.date && JDate.leb t.date endDate)
    let acc := filtered.foldl
      (fun acc t =>
        if t.type == "income" then { acc with income := acc.income + t.amount }
        else { acc with expense := acc.expense + t.amount })
      ({ income := 0, expense := 0, balance := 0 } : Summary)
    .ok ⟨filtered, { acc with balance := acc.income - acc.expense }⟩

end TransactionAPI

/-- Concrete category used to exercise the deleteCategory cascade. -/
def foodCategory : MockCategory :=
  { _id := "cat-1", name := "Food", type := "expense",
    color := some "#FF7D7D", icon := some "food" }

/-- Concrete transaction referencing the Food category. -/
def foodTransaction : MockTransaction :=
  { _id := "t1", type := "expense", amount := 50, category := "Food",
    description := "lunch", date := ⟨2024, 1, 15⟩ }

/-- Concrete state: one Food category and one transaction referencing it. -/
def c1State : CatState :=
  { categories := some [foodCategory], transactions := some [foodTransaction] }

/-- Concrete January 2024 sublist of the sample transactions. -/
def sampleJanTxs : List MockTransaction :=
  [{ _id := "t1", type := "income", amount := 100, category := "Income",
     description := "salary", date := ⟨2024, 1, 5⟩ },
   { _id := "t2", type := "expense", amount := 30, category := "Food",
     description := "lunch", date := ⟨2024, 1, 31⟩ }]

/-- Concrete transaction list used to exercise the monthly aggregation. -/
def sampleTxs : List MockTransaction :=
  [{ _id := "t1", type := "income", amount := 100, category := "Income",
     description := "salary", date := ⟨2024, 1, 5⟩ },
   { _id := "t2", type := "expense", amount := 30, category := "Food",
     description := "lunch", date := ⟨2024, 1, 31⟩ },
   { _id := "t3", type := "expense", amount := 7, category := "Food",
     description := "snack", date := ⟨2024, 2, 1⟩ }]

/-- Concrete user object created by a sample mock registration at clock 3. -/
def adaUser : JObj :=
  [("id", .s "user-3"), ("name", .s "Ada"), ("email", .s "ada@example.com"),
   ("password", .s "longenough"), ("profileCompleted", .b false),
   ("createdAt", .s "iso")]

/-- Concrete response of that sample mock registration. -/
def adaRegResult : MockAuth.MockResult :=
  { success := true, token := "mock-token-user-3-3",
    user := adaUser.filter (fun kv => kv.1 != "password") }

/-- Concrete user map after that sample mock registration. -/
def adaRegUsers : MockAuth.Users :=
  MockAuth.initialUsers ++ [("ada@example.com", adaUser)]

/-- Concrete response of a demo mock login at clock 3. -/
def demoLoginResult : MockAuth.MockResult :=
  { success := true, token := "mock-token-demo-user-id-3",
    user := MockAuth.DEMO_USER.filter (fun kv => kv.1 != "password") }

/-! ## Lemmas about the localStorage model -/

theorem getItem_cons (hd : String × String) (tl : Store) (k : String) :
    Store.getItem (hd :: tl) k =
      if hd.1 = k then some hd.2 else Store.getItem tl k := by
  by_cases h : hd.1 = k <;> simp [Store.getItem, List.find?_cons, h]

theorem removeItem_cons (hd : String × String) (tl : Store) (k : String) :
    Store.removeItem (hd :: tl) k =
      if hd.1 = k then Store.removeItem tl k else hd :: Store.removeItem tl k := by
  by_cases h : hd.1 = k <;> simp [Store.removeItem, List.filter_cons, h]

theorem getItem_removeItem_self (st : Store) (k : String) :
    (Store.removeItem st k).getItem k = none := by
  induction st with
  | nil => rfl
  | cons hd tl ih =>
    rw [removeItem_cons]
    by_cases h : hd.1 = k
    · rw [if_pos h]; exact ih
    · rw [if_neg h, getItem_cons, if_neg h]; exact ih

theorem getItem_removeItem_ne (st : Store) (k k2 : String) (h : k ≠ k2) :
    (Store.removeItem st k2).getItem k = st.getItem k := by
  induction st with
  | nil => rfl
  | cons hd tl ih =>
    rw [removeItem_cons, getItem_cons]
    by_cases h2 : hd.1 = k2
    · have h3 : ¬hd.1 = k := fun hx => h (hx.symm.trans h2)
      rw [if_pos h2, if_neg h3]; exact ih
    · rw [if_neg h2, getItem_cons]
      by_cases h3 : hd.1 = k
      · rw [if_pos h3, if_pos h3]
      · rw [if_neg h3, if_neg h3]; exact ih

theorem getItem_foldl_removeItem (ks : List String) (st : Store) (k : String) :
    ((ks.foldl (fun s kk => s.removeItem kk) st).getItem k) =
      if k ∈ ks then none else st.getItem k := by
  induction ks generalizing st with
  | nil => simp
  | cons kk ks ih =>
    by_cases h : k = kk
    · subst h
      simp only [List.foldl_cons, List.mem_cons, true_or, if_pos]
      rw [ih]
      by_cases h2 : k ∈ ks
      · simp [h2]
      · simp [h2, getItem_removeItem_self]
    · simp only [List.foldl_cons, List.mem_cons]
      rw [ih, getItem_removeItem_ne st k kk h]
      by_cases h2 : k ∈ ks
      · simp [h2]
      · simp [h2, h]

theorem clearLocalStorageOnly_getItem (st sess : Store) (k : String) :
    ((AuthService.clearLocalStorageOnly st sess).1.getItem k) =
      if k ∈ AuthService.keysToRemove then none else st.getItem k := by
  simpa [AuthService.clearLocalStorageOnly] using
    getItem_foldl_removeItem AuthService.keysToRemove st k

theorem logout_store_getItem (so : AuthService.SignOutOutcome) (st sess : Store)
    (k : String) :
    ((AuthService.logout so st sess).store.getItem k) =
      if k ∈ AuthService.keysToRemove then none else st.getItem k := by
  cases so <;> simpa [AuthService.logout] using clearLocalStorageOnly_getItem st sess k

/-! ## Claim theorems -/

/-- C1. The claim states that deleting a category detaches referencing
transactions while keeping them in the transaction list with amount and date
unchanged. The mock branch that actually runs instead deletes them: starting
from one Food category and one transaction with category Food, deleting the
category succeeds, empties the category list, and also empties the
transaction list, so the referencing transaction does not remain. -/
theorem deleteCategory_mock_removes_referencing_transactions :
    (CategoryAPI.deleteCategory "cat-1" c1State).1 = .ok () ∧
    (CategoryAPI.deleteCategory "cat-1" c1State).2.categories = some [] ∧
    (CategoryAPI.deleteCategory "cat-1" c1State).2.transactions = some [] := by
  decide

/-- Remote branch of the cascade, for contrast with the mock branch: updating
category_id to null maps each row either to itself or to the same row with a
cleared category reference, preserving amount and date rowwise. -/
theorem deleteCategorySupabaseDetach_preserves_rows
    (id uid : String) (txs : List CategoryAPI.DbTransaction) :
    List.Forall₂ (fun t0 t1 =>
        t1.amount = t0.amount ∧ t1.date = t0.date ∧
        (t1 = t0 ∨ t1 = { t0 with category_id := none }))
      txs (CategoryAPI.deleteCategorySupabaseDetach id uid txs) := by
  induction txs with
  | nil => exact List.Forall₂.nil
  | cons hd tl ih =>
    refine List.Forall₂.cons ?_ ih
    by_cases h : (hd.category_id == some id && hd.user_id == uid) = true
    · simp [CategoryAPI.deleteCategorySupabaseDetach, h]
    · simp [CategoryAPI.deleteCategorySupabaseDetach, h]

/-- C2 counterexample. The claim lists the categories key among those removed
by every logout, but clearLocalStorageOnly does not remove it: after a logout
with a clean remote sign-out, a stored categories entry is still present. -/
theorem logout_keeps_categories_key_counterexample :
    ((AuthService.logout AuthService.SignOutOutcome.ok
        [("categories", "stored")] []).store.getItem "categories") =
      some "stored" := by
  decide

/-- C2 amended. Regardless of the remote sign-out outcome, logout removes
every key in its removal list, which covers the enumerated keys except the
categories key: token, userData, userProfile, transactions, customCategories,
reminders, monthlyBudget, cartItems and paidRemindersHistory are all absent
afterwards, while the categories entry is left exactly as it was, and
sessionStorage is cleared. -/
theorem logout_clears_cached_keys_except_categories
    (so : AuthService.SignOutOutcome) (st sess : Store) :
    (∀ k, k ∈ AuthService.keysToRemove →
      ((AuthService.logout so st sess).store.getItem k) = none) ∧
    ((AuthService.logout so st sess).store.getItem "categories") =
      st.getItem "categories" ∧
    (AuthService.logout so st sess).session = [] := by
  refine ⟨fun k hk => ?_, ?_, ?_⟩
  · rw [logout_store_getItem, if_pos hk]
  · rw [logout_store_getItem, if_neg (by decide)]
  · cases so <;> rfl

/-- C2 witness: on a store holding a token and a categories entry, a clean
logout removes the token and keeps the categories entry. -/
theorem logout_clears_cached_keys_except_categories_witness :
    ((AuthService.logout AuthService.SignOutOutcome.ok
        [("token", "tk"), ("categories", "stored")] []).store.getItem "token") = none ∧
    ((AuthService.logout AuthService.SignOutOutcome.ok
        [("token", "tk"), ("categories", "stored")] []).store.getItem "categories") =
      some "stored" := by
  refine ⟨(logout_clears_cached_keys_except_categories
    AuthService.SignOutOutcome.ok [("token", "tk"), ("categories", "stored")] []).1
      "token" (by decide), ?_⟩
  have h := (logout_clears_cached_keys_except_categories
    AuthService.SignOutOutcome.ok [("token", "tk"), ("categories", "stored")] []).2.1
  exact h.trans (by decide)

/-- C7. Every logout run reports success, whatever the remote sign-out did,
and it only touches client-side state: every localStorage key outside the
removal list keeps its value, and no component other than the two browser
stores appears in the model because the source makes no data-mutating remote
call during logout. -/
theorem logout_always_success_and_only_clears_client_keys
    (so : AuthService.SignOutOutcome) (st sess : Store) :
    (AuthService.logout so st sess).success = true ∧
    (∀ k, k ∉ AuthService.keysToRemove →
      (AuthService.logout so st sess).store.getItem k = st.getItem k) := by
  constructor
  · cases so <;> rfl
  · intro k hk
    rw [logout_store_getItem, if_neg hk]

/-- Helper: the mock login never resolves with a success flag other than
true; failures are thrown, not returned. -/
theorem mockAuth_login_ok_success (users : MockAuth.Users) (email password : String)
    (c : Clock) (r : MockAuth.MockResult)
    (h : MockAuth.login users email password c = .ok r) : r.success = true := by
  unfold MockAuth.login at h
  split at h
  · exact Except.noConfusion h
  · split at h
    · exact Except.noConfusion h
    · split at h
      · exact Except.noConfusion h
      · injection h with h2
        exact h2 ▸ rfl

/-- Helper: mock tokens are never the empty string. -/
theorem generateToken_ne_empty (uid : String) (c : Clock) :
    MockAuth.generateToken uid c ≠ "" := by
  intro hx
  simp only [MockAuth.generateToken] at hx
  have hlen := congrArg String.length hx
  simp only [String.length_append] at hlen
  have h1 : "mock-token-".length = 11 := rfl
  have h2 : "".length = 0 := rfl
  omega

/-- C3. If a login run reports success, the mock store was invoked exactly
when the credentials are the hard-coded demo pair, and exactly one of the two
backends was invoked, never both. -/
theorem login_success_invokes_exactly_one_backend
    (email password : String) (users : MockAuth.Users) (c : Clock)
    (sb : AuthService.SbLogin) (st : Store)
    (h : (AuthService.login email password users c sb st).resp.success = true) :
    ((AuthService.login email password users c sb st).mockInvoked = true ↔
      email = "demo@budgettracker.com" ∧ password = "demo1234") ∧
    (AuthService.login email password users c sb st).mockInvoked ≠
      (AuthService.login email password users c sb st).supabaseInvoked := by
  by_cases hd : email = "demo@budgettracker.com" ∧ password = "demo1234"
  · rw [AuthService.login, if_pos hd] at h ⊢
    cases hm : MockAuth.login users email password c with
    | error e => rw [hm] at h; exact Bool.noConfusion h
    | ok r =>
      have hs := mockAuth_login_ok_success users email password c r hm
      simp only [hs, ite_true]
      simp [hd.1, hd.2]
  · rw [AuthService.login, if_neg hd] at h ⊢
    cases sb with
    | rejects e => exact Bool.noConfusion h
    | errorField e => exact Bool.noConfusion h
    | noSession => exact Bool.noConfusion h
    | ok d pf =>
      cases pf with
      | error e => exact Bool.noConfusion h
      | ok profile =>
        exact ⟨iff_of_false (fun hx => Bool.noConfusion hx) hd,
          fun hx => Bool.noConfusion hx⟩

/-- C3 witness: the demo login on the seeded mock store succeeds, and on that
run the mock store alone was invoked. -/
theorem login_success_invokes_exactly_one_backend_witness :
    (AuthService.login "demo@budgettracker.com" "demo1234" MockAuth.initialUsers
        ⟨0, "iso"⟩ AuthService.SbLogin.noSession []).resp.success = true ∧
    (((AuthService.login "demo@budgettracker.com" "demo1234" MockAuth.initialUsers
        ⟨0, "iso"⟩ AuthService.SbLogin.noSession []).mockInvoked = true ↔
      "demo@budgettracker.com" = "demo@budgettracker.com" ∧
        "demo1234" = "demo1234") ∧
    (AuthService.login "demo@budgettracker.com" "demo1234" MockAuth.initialUsers
        ⟨0, "iso"⟩ AuthService.SbLogin.noSession []).mockInvoked ≠
      (AuthService.login "demo@budgettracker.com" "demo1234" MockAuth.initialUsers
        ⟨0, "iso"⟩ AuthService.SbLogin.noSession []).supabaseInvoked) :=
  ⟨rfl, login_success_invokes_exactly_one_backend "demo@budgettracker.com"
    "demo1234" MockAuth.initialUsers ⟨0, "iso"⟩ AuthService.SbLogin.noSession [] rfl⟩

/-- Helper: every register run resolves to a response that either succeeds or
carries an error message; no path yields a failure without a message and no
path escapes as an exception. -/
theorem register_resp_shape (name email password : String)
    (oracle : AuthService.RegOracle) (st sess : Store) :
    (AuthService.register name email password oracle st sess).resp.success = true ∨
    (AuthService.register name email password oracle st sess).resp.error.isSome = true := by
  unfold AuthService.register AuthService.registerCatch
  dsimp only
  split
  · split <;> simp
  · simp
  · rcases hl : AuthService.regLoop oracle 0 none none with ⟨regData, regErr⟩
    dsimp only
    rcases regErr with _ | e
    · rcases regData with _ | data
      · simp
      · rcases data with ⟨du, ds⟩
        rcases du with _ | u
        · simp
        · rcases ds with _ | s <;> simp
    · repeat' split
      all_goals simp

/-- Helper: every login run resolves to a response that either succeeds or
carries an error message. -/
theorem login_resp_shape (email password : String) (users : MockAuth.Users)
    (c : Clock) (sb : AuthService.SbLogin) (st : Store) :
    (AuthService.login email password users c sb st).resp.success = true ∨
    (AuthService.login email password users c sb st).resp.error.isSome = true := by
  unfold AuthService.login AuthService.loginSupabase
  repeat' split
  all_goals simp

/-- C5. For every input and every backend behaviour, the auth manager's
register and login return plain results, and whenever the result is a
failure it carries an error message; since both are modelled as total
functions into the response type while every backend interaction is allowed
to throw, no exception escapes to the caller. -/
theorem auth_errors_converted_to_failure_results
    (name email password : String) (oracle : AuthService.RegOracle)
    (st sess : Store) (users : MockAuth.Users) (c : Clock)
    (sb : AuthService.SbLogin) (stl : Store) :
    ((AuthService.register name email password oracle st sess).resp.success = false →
      (AuthService.register name email password oracle st sess).resp.error.isSome = true) ∧
    ((AuthService.login email password users c sb stl).resp.success = false →
      (AuthService.login email password users c sb stl).resp.error.isSome = true) := by
  constructor
  · intro h
    rcases register_resp_shape name email password oracle st sess with hs | he
    · rw [h] at hs; exact Bool.noConfusion hs
    · exact he
  · intro h
    rcases login_resp_shape email password users c sb stl with hs | he
    · rw [h] at hs; exact Bool.noConfusion hs
    · exact he

/-- C5 witness: with a rejecting profile lookup and a rejecting sign-in, both
register and login fail with an error message present. -/
theorem auth_errors_converted_to_failure_results_witness :
    (AuthService.register "Ada" "ada@example.com" "longenough"
        ⟨Except.error ⟨"network down", none⟩, fun _ => Except.ok (none, {})⟩
        [] []).resp.success = false ∧
    (AuthService.register "Ada" "ada@example.com" "longenough"
        ⟨Except.error ⟨"network down", none⟩, fun _ => Except.ok (none, {})⟩
        [] []).resp.error.isSome = true ∧
    (AuthService.login "ada@example.com" "longenough" MockAuth.initialUsers
        ⟨0, "iso"⟩ (AuthService.SbLogin.rejects ⟨"boom", none⟩) []).resp.success = false ∧
    (AuthService.login "ada@example.com" "longenough" MockAuth.initialUsers
        ⟨0, "iso"⟩ (AuthService.SbLogin.rejects ⟨"boom", none⟩) []).resp.error.isSome = true := by
  refine ⟨by decide, ?_, by decide, ?_⟩
  · exact (auth_errors_converted_to_failure_results "Ada" "ada@example.com"
      "longenough" ⟨Except.error ⟨"network down", none⟩, fun _ => Except.ok (none, {})⟩
      [] [] MockAuth.initialUsers ⟨0, "iso"⟩
      (AuthService.SbLogin.rejects ⟨"boom", none⟩) []).1 (by decide)
  · exact (auth_errors_converted_to_failure_results "Ada" "ada@example.com"
      "longenough" ⟨Except.error ⟨"network down", none⟩, fun _ => Except.ok (none, {})⟩
      [] [] MockAuth.initialUsers ⟨0, "iso"⟩
      (AuthService.SbLogin.rejects ⟨"boom", none⟩) []).2 (by decide)

/-- C6. On any mock-store state that still maps the demo email to the seeded
demo user, logging in with the demo credential pair succeeds with a non-empty
token and a user whose id is the fixed demo id. -/
theorem demo_login_succeeds_with_demo_id (users : MockAuth.Users) (c : Clock)
    (sb : AuthService.SbLogin) (st : Store)
    (h : MockAuth.Users.get users "demo@budgettracker.com" = some MockAuth.DEMO_USER) :
    (AuthService.login "demo@budgettracker.com" "demo1234" users c sb st).resp.success = true ∧
    (∃ t, (AuthService.login "demo@budgettracker.com" "demo1234" users c sb st).resp.token =
        some t ∧ t ≠ "") ∧
    ((AuthService.login "demo@budgettracker.com" "demo1234" users c sb st).resp.user.map
        AuthUser.id) = some "demo-user-id" := by
  have hm : MockAuth.login users "demo@budgettracker.com" "demo1234" c =
      .ok { success := true,
            token := MockAuth.generateToken "demo-user-id" c,
            user := MockAuth.DEMO_USER.filter (fun kv => kv.1 != "password") } := by
    unfold MockAuth.login
    rw [if_neg (by decide), h]
    rfl
  rw [AuthService.login, if_pos ⟨rfl, rfl⟩, hm]
  exact ⟨rfl, ⟨MockAuth.generateToken "demo-user-id" c, rfl,
    generateToken_ne_empty "demo-user-id" c⟩, rfl⟩

/-- C6 witness: the demo login on the initial mock store at a fixed clock
yields success, the demo id, and a token. -/
theorem demo_login_succeeds_with_demo_id_witness :
    MockAuth.Users.get MockAuth.initialUsers "demo@budgettracker.com" =
      some MockAuth.DEMO_USER ∧
    (AuthService.login "demo@budgettracker.com" "demo1234" MockAuth.initialUsers
        ⟨42, "iso"⟩ AuthService.SbLogin.noSession []).resp.success = true ∧
    ((AuthService.login "demo@budgettracker.com" "demo1234" MockAuth.initialUsers
        ⟨42, "iso"⟩ AuthService.SbLogin.noSession []).resp.user.map AuthUser.id) =
      some "demo-user-id" :=
  ⟨rfl,
   (demo_login_succeeds_with_demo_id MockAuth.initialUsers ⟨42, "iso"⟩
      AuthService.SbLogin.noSession [] rfl).1,
   (demo_login_succeeds_with_demo_id MockAuth.initialUsers ⟨42, "iso"⟩
      AuthService.SbLogin.noSession [] rfl).2.2⟩

/-- Helper: registering through the mock store never alters the demo entry,
because registration with an already-present email throws. -/
theorem mockAuth_register_preserves_demo (users : MockAuth.Users)
    (name email password : String) (c : Clock) (r : MockAuth.MockResult)
    (users2 : MockAuth.Users)
    (hreg : MockAuth.register users name email password c = .ok (r, users2))
    (h : MockAuth.Users.get users "demo@budgettracker.com" = some MockAuth.DEMO_USER) :
    MockAuth.Users.get users2 "demo@budgettracker.com" = some MockAuth.DEMO_USER := by
  unfold MockAuth.register at hreg
  split at hreg
  · exact Except.noConfusion hreg
  · split at hreg
    · exact Except.noConfusion hreg
    · split at hreg
      · exact Except.noConfusion hreg
      · rename_i hexist
        injection hreg with h2
        injection h2 with h2a h2b
        subst h2b
        unfold MockAuth.Users.get at h ⊢
        rw [List.find?_append]
        cases hf : List.find? (fun kv => kv.1 == "demo@budgettracker.com") users with
        | none => rw [hf] at h; exact Option.noConfusion h
        | some p => rw [hf] at h; simpa using h

/-- C7 witness: a logout whose remote sign-out rejects still succeeds and
keeps an unrelated key. -/
theorem logout_always_success_and_only_clears_client_keys_witness :
    (AuthService.logout (AuthService.SignOutOutcome.rejects ⟨"network down", none⟩)
      [("monthlyGoal", "5")] []).success = true ∧
    (AuthService.logout (AuthService.SignOutOutcome.rejects ⟨"network down", none⟩)
      [("monthlyGoal", "5")] []).store.getItem "monthlyGoal" = some "5" := by
  refine ⟨(logout_always_success_and_only_clears_client_keys
    (AuthService.SignOutOutcome.rejects ⟨"network down", none⟩)
    [("monthlyGoal", "5")] []).1, ?_⟩
  have h := (logout_always_success_and_only_clears_client_keys
    (AuthService.SignOutOutcome.rejects ⟨"network down", none⟩)
    [("monthlyGoal", "5")] []).2 "monthlyGoal" (by decide)
  exact h.trans (by decide)

/-- C4 counterexample. A registration attempt with a 7-character password and
a mismatched confirmation fails with the mismatch message, not the
length-validation message the claim requires for every short-password
attempt. -/
theorem short_password_mismatch_message_counterexample :
    (SignupForm.mk "Alice" "alice@mail.com" "1234567" "7654321").password.length < 8 ∧
    handleSubmitValidation ⟨"Alice", "alice@mail.com", "1234567", "7654321"⟩ =
      SubmitOutcome.validationError "Passwords do not match" ∧
    handleSubmitValidation ⟨"Alice", "alice@mail.com", "1234567", "7654321"⟩ ≠
      SubmitOutcome.validationError "Password must be at least 8 characters" := by
  decide

/-- C4 amended. Every registration attempt whose password is shorter than
eight characters is stopped by the synchronous validation prefix, so no
backend request occurs; when the fields are filled and the password matches
its confirmation, the error shown is exactly the length-validation message,
while earlier checks may report a different message first. -/
theorem signup_short_password_no_backend_call (fd : SignupForm)
    (h : fd.password.length < 8) :
    (∀ n e p, handleSubmitValidation fd ≠ SubmitOutcome.callBackend n e p) ∧
    (fd.name ≠ "" → fd.email ≠ "" → fd.confirmPassword ≠ "" →
      fd.password = fd.confirmPassword →
      handleSubmitValidation fd =
        SubmitOutcome.validationError "Password must be at least 8 characters") := by
  constructor
  · intro n e p hx
    unfold handleSubmitValidation at hx
    by_cases h1 : fd.name = "" ∨ fd.email = "" ∨ fd.password = "" ∨
        fd.confirmPassword = ""
    · rw [if_pos h1] at hx; exact SubmitOutcome.noConfusion hx
    · rw [if_neg h1] at hx
      by_cases h2 : fd.password ≠ fd.confirmPassword
      · rw [if_pos h2] at hx; exact SubmitOutcome.noConfusion hx
      · rw [if_neg h2, if_pos h] at hx; exact SubmitOutcome.noConfusion hx
  · intro hn he hc hm
    have h1 : ¬(fd.name = "" ∨ fd.email = "" ∨ fd.password = "" ∨
        fd.confirmPassword = "") := by
      rintro (hx | hx | hx | hx)
      · exact hn hx
      · exact he hx
      · exact hc (hm.symm.trans hx)
      · exact hc hx
    have h2 : ¬fd.password ≠ fd.confirmPassword := fun hx => hx hm
    unfold handleSubmitValidation
    rw [if_neg h1, if_neg h2, if_pos h]

/-- C4 witness: a filled form with matching 7-character passwords yields the
length-validation message and no backend call. -/
theorem signup_short_password_no_backend_call_witness :
    ("1234567" : String).length < 8 ∧
    handleSubmitValidation ⟨"Alice", "alice@mail.com", "1234567", "1234567"⟩ =
      SubmitOutcome.validationError "Password must be at least 8 characters" :=
  ⟨by decide,
   (signup_short_password_no_backend_call
      ⟨"Alice", "alice@mail.com", "1234567", "1234567"⟩ (by decide)).2
     (by decide) (by decide) (by decide) rfl⟩

/-- C8. The duplicate check of createCategory enforces case-insensitive
uniqueness of name and type pairs: when a stored category matches the request
case-insensitively with the same type, the call fails with the fixed message
and the state is unchanged; and the pairwise uniqueness invariant on the
stored list is preserved by every call. -/
theorem createCategory_rejects_duplicates_preserves_uniqueness
    (category : CategoryInput) (st : CatState) (c : Clock) :
    ((∃ cc ∈ st.categories.getD [], jsToLower cc.name = jsToLower category.name ∧
        cc.type = category.type) →
      CategoryAPI.createCategory category st c =
        (ApiResult.fail "Category already exists", st)) ∧
    ((st.categories.getD []).Pairwise (fun a b =>
        ¬(jsToLower a.name = jsToLower b.name ∧ a.type = b.type)) →
      ((CategoryAPI.createCategory category st c).2.categories.getD []).Pairwise
        (fun a b => ¬(jsToLower a.name = jsToLower b.name ∧ a.type = b.type))) := by
  constructor
  · rintro ⟨cc, hmem, hname, htype⟩
    unfold CategoryAPI.createCategory
    dsimp only
    split
    · rfl
    · rename_i hf
      exact absurd (by simp [hname, htype])
        (List.find?_eq_none.mp hf cc hmem)
  · intro hp
    unfold CategoryAPI.createCategory
    dsimp only
    split
    · exact hp
    · rename_i hf
      simp only [Option.getD_some]
      rw [List.pairwise_append]
      refine ⟨hp, List.pairwise_singleton _ _, ?_⟩
      intro a ha b hb
      rw [List.mem_singleton] at hb
      subst hb
      rintro ⟨hname, htype⟩
      exact (List.find?_eq_none.mp hf a ha) (by simp [hname, htype])

/-- C8 witness: adding a lowercase food expense category when a Food expense
category is stored fails with the duplicate message and leaves the state
unchanged, and the one-element stored list keeps its uniqueness. -/
theorem createCategory_rejects_duplicates_preserves_uniqueness_witness :
    CategoryAPI.createCategory { name := "food", type := "expense" }
        { categories := some [foodCategory] } ⟨7, "iso"⟩ =
      (ApiResult.fail "Category already exists",
       { categories := some [foodCategory] }) ∧
    ((CategoryAPI.createCategory { name := "food", type := "expense" }
        { categories := some [foodCategory] } ⟨7, "iso"⟩).2.categories.getD
        []).Pairwise (fun a b =>
          ¬(jsToLower a.name = jsToLower b.name ∧ a.type = b.type)) :=
  ⟨(createCategory_rejects_duplicates_preserves_uniqueness { name := "food", type := "expense" }
      { categories := some [foodCategory] } ⟨7, "iso"⟩).1 (by decide),
   (createCategory_rejects_duplicates_preserves_uniqueness { name := "food", type := "expense" }
      { categories := some [foodCategory] } ⟨7, "iso"⟩).2 (by decide)⟩

/-- Helper: the calendar-order comparison unfolded to a proposition. -/
theorem leb_iff (a b : JDate) : JDate.leb a b = true ↔
    (a.year < b.year ∨ (a.year = b.year ∧
      (a.month < b.month ∨ (a.month = b.month ∧ a.day ≤ b.day)))) := by
  unfold JDate.leb
  split_ifs with h1 h2 h3 h4 <;> simp_all

/-- Helper: for a valid stored date, membership in the first-to-last-day range
of a queried month is the same as having that year and month. -/
theorem range_filter_eq_month (year : Int) (month : Nat) (t : MockTransaction)
    (h1 : 1 ≤ t.date.day)
    (h2 : t.date.day ≤ daysInMonth t.date.year t.date.month) :
    (JDate.leb ⟨year, month, 1⟩ t.date &&
      JDate.leb t.date ⟨year, month, daysInMonth year month⟩) =
    (t.date.year == year && t.date.month == month) := by
  rw [Bool.eq_iff_iff]
  simp only [Bool.and_eq_true, leb_iff, beq_iff_eq]
  constructor
  · rintro ⟨hstart, hend⟩
    constructor
    · omega
    · omega
  · rintro ⟨hy, hm2⟩
    rw [hy, hm2] at h2 ⊢
    omega

/-- Helper: the summary fold accumulates exactly the income and expense sums
of the folded list on top of the initial accumulator, leaving balance
untouched. -/
theorem foldSummary (l : List MockTransaction) (i e b : Int) :
    l.foldl
      (fun acc t =>
        if t.type == "income" then { acc with income := acc.income + t.amount }
        else { acc with expense := acc.expense + t.amount })
      ({ income := i, expense := e, balance := b } : Summary) =
    { income := i + ((l.filter (fun t => t.type == "income")).map
        MockTransaction.amount).sum,
      expense := e + ((l.filter (fun t => !(t.type == "income"))).map
        MockTransaction.amount).sum,
      balance := b } := by
  induction l generalizing i e with
  | nil => simp
  | cons hd tl ih =>
    rw [List.foldl_cons]
    by_cases h : (hd.type == "income") = true
    · rw [if_pos h, ih, List.filter_cons, List.filter_cons, if_pos h,
        if_neg (by simp [h])]
      simp [add_assoc]
    · simp only [Bool.not_eq_true] at h
      rw [if_neg (by simp [h]), ih, List.filter_cons, List.filter_cons,
        if_neg (by simp [h]), if_pos (by simp [h])]
      simp [add_assoc]

/-- C9. getMonthlyTransactions is a pure function of the stored list: for
valid stored dates it returns exactly the transactions of the queried month,
a summary whose income is the sum of the filtered income amounts, whose
expense is the sum of the remaining filtered amounts, and whose balance is
income minus expense. -/
theorem getMonthlyTransactions_filters_and_sums
    (stored : Option (List MockTransaction)) (year : Int) (month : Nat)
    (hv : ∀ t ∈ stored.getD [], 1 ≤ t.date.day ∧
      t.date.day ≤ daysInMonth t.date.year t.date.month) :
    TransactionAPI.getMonthlyTransactions year month stored =
      ApiResult.ok
        { transactions := (stored.getD []).filter
            (fun t => t.date.year == year && t.date.month == month),
          summary :=
            { income := (((stored.getD []).filter
                  (fun t => t.date.year == year && t.date.month == month)).filter
                  (fun t => t.type == "income")).map MockTransaction.amount |>.sum,
              expense := (((stored.getD []).filter
                  (fun t => t.date.year == year && t.date.month == month)).filter
                  (fun t => !(t.type == "income"))).map MockTransaction.amount |>.sum,
              balance :=
                ((((stored.getD []).filter
                  (fun t => t.date.year == year && t.date.month == month)).filter
                  (fun t => t.type == "income")).map MockTransaction.amount |>.sum) -
                ((((stored.getD []).filter
                  (fun t => t.date.year == year && t.date.month == month)).filter
                  (fun t => !(t.type == "income"))).map MockTransaction.amount |>.sum) } } := by
  cases stored with
  | none => simp [TransactionAPI.getMonthlyTransactions]
  | some txs =>
    unfold TransactionAPI.getMonthlyTransactions
    simp only [Option.getD_some] at hv ⊢
    have hfe : txs.filter
        (fun t => JDate.leb ⟨year, month, 1⟩ t.date &&
          JDate.leb t.date ⟨year, month, daysInMonth year month⟩) =
        txs.filter (fun t => t.date.year == year && t.date.month == month) :=
      List.filter_congr (fun t ht =>
        range_filter_eq_month year month t (hv t ht).1 (hv t ht).2)
    rw [hfe, foldSummary]
    simp

/-- C9 witness: a three-transaction store with two January 2024 entries
aggregates to the expected filtered list and sums. -/
theorem getMonthlyTransactions_filters_and_sums_witness :
    (∀ t ∈ (some sampleTxs : Option (List MockTransaction)).getD [],
      1 ≤ t.date.day ∧ t.date.day ≤ daysInMonth t.date.year t.date.month) ∧
    TransactionAPI.getMonthlyTransactions 2024 1 (some sampleTxs) =
      ApiResult.ok
        { transactions := sampleJanTxs,
          summary := { income := 100, expense := 30, balance := 70 } } := by
  constructor
  · decide
  · have h := getMonthlyTransactions_filters_and_sums (some sampleTxs) 2024 1
      (by decide)
    exact h.trans (by decide)

/-- Helper: rest-destructuring away a key leaves an object without that key. -/
theorem key_not_in_filterNot (o : JObj) (k : String) :
    k ∉ JObj.keys (o.filter (fun kv => kv.1 != k)) := by
  intro hx
  rcases List.mem_map.mp hx with ⟨kv, hkv, hk⟩
  rcases List.mem_filter.mp hkv with ⟨hmem, hpred⟩
  exact absurd hk (bne_iff_ne.mp hpred)

/-- C10. Successful mock register and login responses carry a user object
with no password key; register keeps the full password inside the stored
user map entry, and login returns exactly the stored user object with the
password binding removed while leaving the map untouched. -/
theorem mock_auth_strips_password_from_responses
    (users : MockAuth.Users) (name email password : String) (c : Clock) :
    (∀ r users2, MockAuth.register users name email password c =
        Except.ok (r, users2) →
      "password" ∉ JObj.keys r.user ∧
      ∃ u, MockAuth.Users.get users2 email = some u ∧
        JObj.get u "password" = some (JVal.s password)) ∧
    (∀ r, MockAuth.login users email password c = Except.ok r →
      "password" ∉ JObj.keys r.user ∧
      ∃ u, MockAuth.Users.get users email = some u ∧
        r.user = u.filter (fun kv => kv.1 != "password")) := by
  constructor
  · intro r users2 hreg
    unfold MockAuth.register at hreg
    split at hreg
    · exact Except.noConfusion hreg
    · split at hreg
      · exact Except.noConfusion hreg
      · split at hreg
        · exact Except.noConfusion hreg
        · rename_i hexist
          injection hreg with h2
          injection h2 with h2a h2b
          subst h2b
          constructor
          · rw [← h2a]
            exact key_not_in_filterNot _ "password"
          · have hnone : MockAuth.Users.get users email = none := by
              rcases hx : MockAuth.Users.get users email with _ | u
              · rfl
              · rw [hx] at hexist; exact absurd rfl hexist
            have hfind : List.find? (fun kv => kv.1 == email) users = none := by
              unfold MockAuth.Users.get at hnone
              exact Option.map_eq_none'.mp hnone
            refine ⟨[("id", JVal.s ("user-" ++ toString c.nowMs)),
              ("name", JVal.s name), ("email", JVal.s email),
              ("password", JVal.s password), ("profileCompleted", JVal.b false),
              ("createdAt", JVal.s c.isoNow)], ?_, rfl⟩
            unfold MockAuth.Users.get
            rw [List.find?_append, hfind]
            simp
  · intro r hlog
    unfold MockAuth.login at hlog
    split at hlog
    · exact Except.noConfusion hlog
    · split at hlog
      · exact Except.noConfusion hlog
      · rename_i user heq
        split at hlog
        · exact Except.noConfusion hlog
        · injection hlog with h2
          constructor
          · rw [← h2]
            exact key_not_in_filterNot user "password"
          · exact ⟨user, heq, by rw [← h2]⟩

/-- C10 witness: a concrete register on the seeded store and the demo login
both return a user object without a password key while the map keeps it. -/
theorem mock_auth_strips_password_from_responses_witness :
    ("password" ∉ JObj.keys adaRegResult.user ∧
      ∃ u, MockAuth.Users.get adaRegUsers "ada@example.com" = some u ∧
        JObj.get u "password" = some (JVal.s "longenough")) ∧
    ("password" ∉ JObj.keys demoLoginResult.user ∧
      ∃ u, MockAuth.Users.get MockAuth.initialUsers "demo@budgettracker.com" =
          some u ∧
        demoLoginResult.user = u.filter (fun kv => kv.1 != "password")) :=
  ⟨(mock_auth_strips_password_from_responses MockAuth.initialUsers "Ada"
      "ada@example.com" "longenough" ⟨3, "iso"⟩).1 adaRegResult adaRegUsers
      rfl,
   (mock_auth_strips_password_from_responses MockAuth.initialUsers ""
      "demo@budgettracker.com" "demo1234" ⟨3, "iso"⟩).2 demoLoginResult
      rfl⟩

end FinTrack
